import Mathlib

/-!
Shallow embedding of the postdock package (postdock.go): a command
construction and execution layer for provisioning, inspecting, importing
into, and tearing down PostgreSQL databases, running either directly on
the host (when already inside a docker container) or inside a disposable
docker container.

External effects (process execution via the script library, filepath.Abs,
file writes) are modeled by an environment oracle `Env`.  Every operation
returns, next to its Go result, the ordered list of external command lines
it spawned (the trace), so that claims about which processes run (or do
not run) are statable.
-/

set_option maxRecDepth 100000

namespace Postdock

/-- Result of running one external process: its exit status, the captured
combined output, and an optional read error raised when the output stream
is consumed (the script library can report such an error from String). -/
structure ProcOut where
  exit : Nat
  out : String
  readErr : Option String
deriving DecidableEq

/-- The Options struct of postdock.go.  DBPort is a Go int, modeled as Int.
dockerVolume is the unexported mount spec set internally by Import. -/
structure Options where
  DockerImage : String
  DockerNetwork : String
  dockerVolume : String
  DBName : String
  DBHost : String
  DBPort : Int
  DBUser : String
  DBPassword : String
  Debug : Bool
deriving DecidableEq

/-- A Go error value at the granularity observable by callers of this
package: its message string, together with whether it wraps the exported
sentinel ErrDBNotExist (the only sentinel the package exposes, so the only
extra structure errors.Is can observe). -/
inductive GoError where
  | plain (msg : String)
  | notExist (msg : String)
deriving DecidableEq

/-- errors.Is(err, ErrDBNotExist) for errors produced by this package. -/
def isNotExistErr : GoError → Bool
  | .notExist _ => true
  | .plain _ => false

instance {ε α : Type} [DecidableEq ε] [DecidableEq α] : DecidableEq (Except ε α) := fun a b =>
  match a, b with
  | .ok x, .ok y => if h : x = y then isTrue (by rw [h]) else isFalse (by simp [h])
  | .error x, .error y => if h : x = y then isTrue (by rw [h]) else isFalse (by simp [h])
  | .ok _, .error _ => isFalse (by simp)
  | .error _, .ok _ => isFalse (by simp)

/-- The oracle for everything outside the process: whether the marker file
/.dockerenv exists (inDocker), the behavior of each spawned command line
(exec), filepath.Abs (which consults the working directory), and writing
the dump output file (returning an error message on failure). -/
structure Env where
  inDocker : Bool
  exec : String → ProcOut
  abs : String → Except String String
  writeFile : String → String → Option String

/-- A single-quote character as a string, used to build the SQL literals
that postdock.go writes with quoted format verbs. -/
def sq : String := String.singleton (Char.ofNat 39)

/-- Lower-case hexadecimal digit, for the escape forms of goQuote. -/
def hexDigit (n : Nat) : Char :=
  if n < 10 then Char.ofNat (48 + n) else Char.ofNat (87 + n)

/-- Escape of one character under the Go format verb %q (strconv.Quote),
for the ASCII range actually fed to it by this package: double quote and
backslash are escaped, the named control escapes are used, remaining
control characters take a two-digit hexadecimal escape, and printable
characters stand for themselves. -/
def goQuoteChar (c : Char) : String :=
  if c = '"' then "\\\""
  else if c = '\\' then "\\\\"
  else if c = '\n' then "\\n"
  else if c = '\t' then "\\t"
  else if c = '\r' then "\\r"
  else if c.toNat = 7 then "\\a"
  else if c.toNat = 8 then "\\b"
  else if c.toNat = 12 then "\\f"
  else if c.toNat = 11 then "\\v"
  else if c.toNat < 32 || c.toNat = 127 then
    "\\x" ++ String.mk [hexDigit (c.toNat / 16), hexDigit (c.toNat % 16)]
  else String.singleton c

/-- The Go format verb %q applied to a string. -/
def goQuote (s : String) : String :=
  "\"" ++ String.join (s.toList.map goQuoteChar) ++ "\""

/-- Is the first character list an initial segment of the second. -/
def isPfx : List Char → List Char → Bool
  | [], _ => true
  | _ :: _, [] => false
  | a :: as, b :: bs => a == b && isPfx as bs

/-- strings.Contains: does s contain sub as a substring. -/
def containsSub (s sub : String) : Bool :=
  (List.range (s.data.length + 1)).any (fun i => isPfx sub.data (s.data.drop i))

/-- strings.HasPrefix / the anchored start-of-line regexp match. -/
def startsWithStr (s pfx : String) : Bool := isPfx pfx.data s.data

/-- strings.TrimPrefix: remove one leading occurrence of pfx, if present. -/
def trimPfx (s pfx : String) : String :=
  if isPfx pfx.data s.data then String.mk (s.data.drop pfx.data.length) else s

/-- strings.TrimSpace: drop leading and trailing whitespace characters. -/
def trimStr (s : String) : String :=
  String.mk (((s.data.dropWhile Char.isWhitespace).reverse.dropWhile
    Char.isWhitespace).reverse)

/-- filepath.Split: split a path immediately after its final slash into
(directory part including the slash, file name part). -/
def filepathSplit (p : String) : String × String :=
  let rev := p.toList.reverse
  (((rev.dropWhile (fun c => c ≠ '/')).reverse).asString,
   ((rev.takeWhile (fun c => c ≠ '/')).reverse).asString)

/-- strconv.ParseBool: the exact set of accepted literals. -/
def parseBool (s : String) : Option Bool :=
  if s = "1" ∨ s = "t" ∨ s = "T" ∨ s = "TRUE" ∨ s = "true" ∨ s = "True" then some true
  else if s = "0" ∨ s = "f" ∨ s = "F" ∨ s = "FALSE" ∨ s = "false" ∨ s = "False" then some false
  else none

/-- The error value strconv.ParseBool returns on a malformed literal. -/
def parseBoolErr (s : String) : GoError :=
  .plain ("strconv.ParseBool: parsing " ++ goQuote s ++ ": invalid syntax")

/-- Options.isValid from postdock.go: checks, in order, the db name
argument, host, user, password, and docker image, returning the error for
the first empty one (none when all are set). -/
def Options.isValid (o : Options) (dbName : String) : Option GoError :=
  if dbName = "" then some (.plain "postdock: required option: db name")
  else if o.DBHost = "" then some (.plain "postdock: required option: db host")
  else if o.DBUser = "" then some (.plain "postdock: required option: db user")
  else if o.DBPassword = "" then some (.plain "postdock: required option: db password")
  else if o.DockerImage = "" then
    some (.plain "postdock: required option: docker base image (ex: postgres:11.7-alpine")
  else none

/-- inDocker from postdock.go: os.Stat on /.dockerenv, modeled by the
environment flag; a missing marker is false, never an error. -/
def inDocker (env : Env) : Bool := env.inDocker

/-- psql from postdock.go: render the inline-statement command, applying
the 5432 default when the configured port is the zero value. -/
def psql (dbName query : String) (o : Options) : String :=
  let port : Int := if o.DBPort = 0 then 5432 else o.DBPort
  "PGPASSWORD=" ++ o.DBPassword ++ " psql -h " ++ o.DBHost ++ " -d " ++ dbName ++
    " -U " ++ o.DBUser ++ " -p " ++ toString port ++ " -v ON_ERROR_STOP=1 -t -c " ++
    goQuote query

/-- psqlFile from postdock.go: render the file-based command, applying the
5432 default when the configured port is the zero value. -/
def psqlFile (dbName fileName : String) (o : Options) : String :=
  let port : Int := if o.DBPort = 0 then 5432 else o.DBPort
  "PGPASSWORD=" ++ o.DBPassword ++ " psql -h " ++ o.DBHost ++ " -d " ++ dbName ++
    " -U " ++ o.DBUser ++ " -p " ++ toString port ++ " -v ON_ERROR_STOP=1 --file=" ++
    fileName

/-- The pg_dump command string built inside SchemaDump (after its port
defaulting has been applied to the options). -/
def pgDumpCmd (dbName : String) (o : Options) : String :=
  "PGPASSWORD=" ++ o.DBPassword ++ " pg_dump -h " ++ o.DBHost ++ " -p " ++
    toString o.DBPort ++ " -U " ++ o.DBUser ++ " " ++ dbName ++ " --schema-only"

/-- The port-defaulting statement at the top of SchemaDump. -/
def defaultPort (o : Options) : Options :=
  if o.DBPort = 0 then { o with DBPort := 5432 } else o

/-- The user-existence query built in Create. -/
def userExistsQuery (o : Options) : String :=
  "SELECT EXISTS ( SELECT usename FROM pg_catalog.pg_user WHERE usename = " ++
    sq ++ o.DBUser ++ sq ++ ");"

/-- The CREATE USER statement built in Create. -/
def createUserQuery (o : Options) : String :=
  "CREATE USER " ++ o.DBUser ++ " WITH PASSWORD " ++ sq ++ o.DBPassword ++ sq ++ ";"

/-- The database-existence query built in Exists. -/
def dbExistsQuery (dbName : String) : String :=
  "SELECT EXISTS ( SELECT datname FROM pg_database WHERE datname = " ++
    sq ++ dbName ++ sq ++ ")"

/-- The CREATE DATABASE statement built in Create. -/
def createDBQuery (dbName : String) (o : Options) : String :=
  "CREATE DATABASE " ++ dbName ++ " ENCODING " ++ sq ++ "UTF-8" ++ sq ++
    " LC_COLLATE=" ++ sq ++ "en_US.UTF-8" ++ sq ++
    " LC_CTYPE=" ++ sq ++ "en_US.UTF-8" ++ sq ++
    " TEMPLATE template0 OWNER " ++ o.DBUser ++ ";"

/-- The batched privileges statement built in Create: the four GRANT and
ALTER DEFAULT PRIVILEGES templates instantiated with the user and joined
by a semicolon and a space. -/
def grantQueries (o : Options) : String :=
  String.intercalate "; "
    (["GRANT ALL PRIVILEGES ON ALL TABLES IN SCHEMA public TO ",
      "GRANT ALL PRIVILEGES ON ALL SEQUENCES IN SCHEMA public TO ",
      "ALTER DEFAULT PRIVILEGES IN SCHEMA public GRANT ALL PRIVILEGES ON TABLES TO ",
      "ALTER DEFAULT PRIVILEGES IN SCHEMA public GRANT ALL PRIVILEGES ON SEQUENCES TO "].map
      (fun q => q ++ o.DBUser))

/-- The backend-termination query built in Terminate. -/
def terminateQuery (dbName : String) : String :=
  "SELECT pg_terminate_backend(pid) FROM pg_stat_activity WHERE datname = " ++
    sq ++ dbName ++ sq ++ ";"

/-- The conditional drop statement built in Drop. -/
def dropQuery (dbName : String) : String :=
  "DROP DATABASE IF EXISTS " ++ dbName ++ ";"

/-- The docker pull command line built in dockerPull. -/
def pullCmd (imageName : String) : String := "docker pull -q " ++ imageName

/-- dockerPull from postdock.go: run the pull command; a positive exit
status yields the raw-error wrapping of the captured output. -/
def dockerPull (imageName : String) (env : Env) : Except GoError Unit × List String :=
  let p := env.exec (pullCmd imageName)
  if p.exit > 0 then (.error (.plain ("raw error: " ++ p.out)), [pullCmd imageName])
  else (.ok (), [pullCmd imageName])

/-- The docker run wrapper command line built in run for the
non-embedded path: auto-removing container, optional network and volume
flags, and the inner command passed to sh -c under the %q quoting. -/
def dockerRunCmd (cmd : String) (o : Options) : String :=
  let network := if o.DockerNetwork ≠ "" then "--network=" ++ o.DockerNetwork else ""
  let vol := if o.dockerVolume ≠ "" then "--volume " ++ o.dockerVolume else ""
  "docker run --rm " ++ network ++ " " ++ vol ++ " " ++ o.DockerImage ++
    " sh -c " ++ goQuote cmd

/-- The shared result normalization in both branches of run: a positive
exit status becomes the raw-error wrapping of the captured output, a read
error is returned as is, and otherwise the output is returned trimmed of
leading and trailing whitespace. -/
def execResult (p : ProcOut) : Except GoError String :=
  if p.exit > 0 then .error (.plain ("raw error: " ++ p.out))
  else match p.readErr with
    | some msg => .error (.plain msg)
    | none => .ok (trimStr p.out)

/-- run from postdock.go.  Inside docker the command line is executed
directly; outside, the image is pulled first (a pull failure aborts) and
the command is wrapped into an auto-removing docker run invocation.  The
second component is the trace of spawned command lines. -/
def run (cmd : String) (o : Options) (env : Env) : Except GoError String × List String :=
  if inDocker env then
    (execResult (env.exec cmd), [cmd])
  else
    match dockerPull o.DockerImage env with
    | (.error e, t) => (.error e, t)
    | (.ok _, t) =>
      let e := dockerRunCmd cmd o
      (execResult (env.exec e), t ++ [e])

/-- Exists from postdock.go: validate, run the catalog existence query
against the postgres bootstrap database, and parse the boolean output;
true is success, false is the distinguished not-found error wrapping
dbName, and a malformed boolean is the ParseBool hard error. -/
def Exists (dbName : String) (opt : Options) (env : Env) :
    Except GoError Unit × List String :=
  match opt.isValid dbName with
  | some e => (.error e, [])
  | none =>
    match run (psql "postgres" (dbExistsQuery dbName) opt) opt env with
    | (.error e, t) => (.error e, t)
    | (.ok out, t) =>
      match parseBool out with
      | none => (.error (parseBoolErr out), t)
      | some true => (.ok (), t)
      | some false => (.error (.notExist (dbName ++ ": db does not exists")), t)

/-- Create from postdock.go: validate; check the user exists (creating it
when absent); then probe Exists and return success when it reports the
database present; on any Exists error (not-found or hard) fall through to
CREATE DATABASE and the batched privileges statement.  Debug logging is
omitted (it produces no result and spawns no process). -/
def Create (dbName : String) (opt : Options) (env : Env) :
    Except GoError Unit × List String :=
  match opt.isValid dbName with
  | some e => (.error e, [])
  | none =>
    match run (psql "postgres" (userExistsQuery opt) opt) opt env with
    | (.error e, t) => (.error e, t)
    | (.ok out, t) =>
      match parseBool out with
      | none => (.error (parseBoolErr out), t)
      | some uexists =>
        let userStep : Except GoError Unit × List String :=
          if uexists then (.ok (), [])
          else
            match run (psql "postgres" (createUserQuery opt) opt) opt env with
            | (.error e, t2) => (.error e, t2)
            | (.ok _, t2) => (.ok (), t2)
        match userStep with
        | (.error e, t2) => (.error e, t ++ t2)
        | (.ok _, t2) =>
          match Exists dbName opt env with
          | (.ok _, t3) => (.ok (), t ++ t2 ++ t3)
          | (.error _, t3) =>
            match run (psql "postgres" (createDBQuery dbName opt) opt) opt env with
            | (.error e, t4) => (.error e, t ++ t2 ++ t3 ++ t4)
            | (.ok _, t4) =>
              match run (psql dbName (grantQueries opt) opt) opt env with
              | (.error e, t5) => (.error e, t ++ t2 ++ t3 ++ t4 ++ t5)
              | (.ok _, t5) => (.ok (), t ++ t2 ++ t3 ++ t4 ++ t5)

/-- Terminate from postdock.go: validate, then terminate all backends
connected to dbName; success of the execution call is success. -/
def Terminate (dbName : String) (opt : Options) (env : Env) :
    Except GoError Unit × List String :=
  match opt.isValid dbName with
  | some e => (.error e, [])
  | none =>
    match run (psql "postgres" (terminateQuery dbName) opt) opt env with
    | (.error e, t) => (.error e, t)
    | (.ok _, t) => (.ok (), t)

/-- Drop from postdock.go: Terminate first (propagating its error), then
the conditional DROP DATABASE IF EXISTS statement. -/
def Drop (dbName : String) (opt : Options) (env : Env) :
    Except GoError Unit × List String :=
  match Terminate dbName opt env with
  | (.error e, t) => (.error e, t)
  | (.ok _, t) =>
    match run (psql "postgres" (dropQuery dbName) opt) opt env with
    | (.error e, t2) => (.error e, t ++ t2)
    | (.ok _, t2) => (.ok (), t ++ t2)

/-- The directory Import mounts: strip one leading dot and then one
leading slash from the sql file path and take the directory part. -/
def importDir (sqlFile : String) : String :=
  (filepathSplit (trimPfx (trimPfx sqlFile ".") "/")).1

/-- Import from postdock.go: an empty sqlFile is an immediate error; then
Drop, Create, resolve the mount directory to an absolute path, set the
volume spec binding it at the matching internal path, and run the
file-based restore command. -/
def Import (dbName sqlFile : String) (opt : Options) (env : Env) :
    Except GoError Unit × List String :=
  if sqlFile = "" then (.error (.plain "required option: sql file to import"), [])
  else
    match Drop dbName opt env with
    | (.error e, t) => (.error e, t)
    | (.ok _, t) =>
      match Create dbName opt env with
      | (.error e, t2) => (.error e, t ++ t2)
      | (.ok _, t2) =>
        let dir := importDir sqlFile
        match env.abs dir with
        | .error msg => (.error (.plain msg), t ++ t2)
        | .ok absDir =>
          let o2 := { opt with dockerVolume := absDir ++ ":/" ++ dir }
          match run (psqlFile dbName sqlFile o2) o2 env with
          | (.error e, t3) => (.error e, t ++ t2 ++ t3)
          | (.ok _, t3) => (.ok (), t ++ t2 ++ t3)

/-- Split a character list at newline characters. -/
def splitNL (cs : List Char) : List (List Char) :=
  cs.foldr
    (fun c acc =>
      if c = '\n' then [] :: acc
      else
        match acc with
        | [] => [[c]]
        | h :: t => (c :: h) :: t)
    [[]]

/-- Split a string into its lines, as the script pipeline scanner does. -/
def splitLines (s : String) : List String := (splitNL s.data).map String.mk

/-- Rejoin lines, each followed by a newline, as the pipeline writes
them. -/
def joinLines (ls : List String) : String :=
  String.join (ls.map (fun l => l ++ "\n"))

/-- The Reject and RejectRegexp chain of the SchemaDump pipeline, in
source order: drop lines containing the two substrings and lines starting
with the five anchored patterns. -/
def rejectChain (ls : List String) : List String :=
  ((((((ls.filter (fun l => !(containsSub l "ALTER DEFAULT PRIVILEGES"))).filter
    (fun l => !(containsSub l "OWNER TO"))).filter
    (fun l => !(startsWithStr l "--"))).filter
    (fun l => !(startsWithStr l "REVOKE"))).filter
    (fun l => !(startsWithStr l "COMMENT ON"))).filter
    (fun l => !(startsWithStr l "SET"))).filter
    (fun l => !(startsWithStr l "GRANT"))

/-- Helper for the cat -s squeeze: the flag records whether the previous
emitted line was blank, so further blanks in the same run are dropped. -/
def squeezeAux : Bool → List String → List String
  | _, [] => []
  | prevBlank, l :: rest =>
    if l = "" then
      if prevBlank then squeezeAux true rest
      else "" :: squeezeAux true rest
    else l :: squeezeAux false rest

/-- The semantics of cat -s: collapse every run of consecutive blank
lines into a single blank line. -/
def catSqueeze (ls : List String) : List String := squeezeAux false ls

/-- The whole SchemaDump filtering stage: the rejection chain followed by
the cat -s squeeze. -/
def dumpFilter (ls : List String) : List String := catSqueeze (rejectChain ls)

/-- Specification-side predicate: the list has no two consecutive blank
lines. -/
def noTwoBlanks : List String → Bool
  | [] => true
  | [_] => true
  | a :: b :: rest => !(a == "" && b == "") && noTwoBlanks (b :: rest)

/-- SchemaDump from postdock.go: validate, apply the port default, run
pg_dump through run, filter the output, and optionally write it to
outputFile (a write failure is returned instead of the text).  The
external cat -s process of the pipeline is modeled by its squeeze
semantics with exit status zero; its own failure path is not modeled. -/
def SchemaDump (dbName outputFile : String) (opt : Options) (env : Env) :
    Except GoError String × List String :=
  match opt.isValid dbName with
  | some e => (.error e, [])
  | none =>
    let o := defaultPort opt
    match run (pgDumpCmd dbName o) o env with
    | (.error e, t) => (.error e, t)
    | (.ok out, t) =>
      let dump := joinLines (dumpFilter (splitLines out))
      if outputFile = "" then (.ok dump, t)
      else
        match env.writeFile outputFile dump with
        | some e => (.error (.plain e), t)
        | none => (.ok dump, t)

/-! Concrete fixtures used by witnesses and counterexamples. -/

/-- A valid base configuration. -/
def bOpt : Options :=
  { DockerImage := "img", DockerNetwork := "", dockerVolume := "",
    DBName := "cfg", DBHost := "h", DBPort := 0, DBUser := "u",
    DBPassword := "pw", Debug := false }

/-- An environment inside docker where every command exits 0 with
output " t ". -/
def okEnv : Env :=
  { inDocker := true,
    exec := fun _ => { exit := 0, out := " t ", readErr := none },
    abs := fun d => .ok ("/cwd/" ++ d),
    writeFile := fun _ _ => none }

/-- An environment inside docker where the database existence query fails
with exit status 1 and output boom, while every other command exits 0
with boolean output. -/
def existsFailEnv : Env :=
  { inDocker := true,
    exec := fun c =>
      if c = psql "postgres" (dbExistsQuery "mydb") bOpt then
        { exit := 1, out := "boom", readErr := none }
      else { exit := 0, out := " t ", readErr := none },
    abs := fun d => .ok ("/cwd/" ++ d),
    writeFile := fun _ _ => none }

/-- An environment inside docker for a fresh bootstrap: the user check
and the database existence query both report false, and every other
command (user creation, database creation, privileges) exits 0 with
boolean output. -/
def bootstrapEnv : Env :=
  { inDocker := true,
    exec := fun c =>
      if c = psql "postgres" (userExistsQuery bOpt) bOpt then
        { exit := 0, out := " f ", readErr := none }
      else if c = psql "postgres" (dbExistsQuery "mydb") bOpt then
        { exit := 0, out := " f ", readErr := none }
      else { exit := 0, out := " t ", readErr := none },
    abs := fun d => .ok ("/cwd/" ++ d),
    writeFile := fun _ _ => none }

/-- An environment inside docker where every command exits 0 with
output " ok ". -/
def okTextEnv : Env :=
  { inDocker := true,
    exec := fun _ => { exit := 0, out := " ok ", readErr := none },
    abs := fun d => .ok ("/cwd/" ++ d),
    writeFile := fun _ _ => none }

/-- An environment inside docker where every command exits 1 with
output boom. -/
def bangEnv : Env :=
  { inDocker := true,
    exec := fun _ => { exit := 1, out := "boom", readErr := none },
    abs := fun d => .ok ("/cwd/" ++ d),
    writeFile := fun _ _ => none }

/-- An environment outside docker where the image pull fails with output
boom and every other command succeeds. -/
def pullFailEnv : Env :=
  { inDocker := false,
    exec := fun c =>
      if c = pullCmd bOpt.DockerImage then { exit := 1, out := "boom", readErr := none }
      else { exit := 0, out := "", readErr := none },
    abs := fun d => .ok ("/cwd/" ++ d),
    writeFile := fun _ _ => none }

/-- An environment outside docker where the image pull succeeds and every
other command fails with output boom. -/
def runFailEnv : Env :=
  { inDocker := false,
    exec := fun c =>
      if c = pullCmd bOpt.DockerImage then { exit := 0, out := "", readErr := none }
      else { exit := 1, out := "boom", readErr := none },
    abs := fun d => .ok ("/cwd/" ++ d),
    writeFile := fun _ _ => none }

/-! Helper lemmas shared by the claim theorems. -/

theorem execResult_ok_iff (p : ProcOut) (s : String) :
    execResult p = .ok s ↔ (p.exit = 0 ∧ p.readErr = none ∧ s = trimStr p.out) := by
  rcases p with ⟨e, pout, re⟩
  unfold execResult
  by_cases he : e > 0
  · simp only [he, if_true]
    simp only [reduceCtorEq, false_iff]
    rintro ⟨h0, -, -⟩
    omega
  · have he0 : e = 0 := by omega
    subst he0
    simp only [gt_iff_lt, Nat.lt_irrefl, if_false]
    cases re <;> simp [eq_comm]

theorem execResult_err (p : ProcOut) (h : p.exit > 0) :
    execResult p = .error (.plain ("raw error: " ++ p.out)) := by
  unfold execResult
  simp [h]

/-- Claim C2: run returns the trimmed output with no error exactly when
the executed process exits with status 0 and its output is read
successfully; whenever the exit status is positive it returns an error
wrapping the captured output.  The first conjunct covers the in-docker
branch, where the command line itself is the process; the second covers
the containerized branch, given that the preceding image pull succeeded,
where the wrapped docker run command is the process. -/
theorem run_result_characterization (cmd : String) (o : Options) (env : Env) :
    (env.inDocker = true →
      (∀ s, (run cmd o env).1 = .ok s ↔
          ((env.exec cmd).exit = 0 ∧ (env.exec cmd).readErr = none ∧
            s = trimStr (env.exec cmd).out)) ∧
      ((env.exec cmd).exit > 0 →
        (run cmd o env).1 = .error (.plain ("raw error: " ++ (env.exec cmd).out)))) ∧
    (env.inDocker = false → (env.exec (pullCmd o.DockerImage)).exit = 0 →
      (∀ s, (run cmd o env).1 = .ok s ↔
          ((env.exec (dockerRunCmd cmd o)).exit = 0 ∧
            (env.exec (dockerRunCmd cmd o)).readErr = none ∧
            s = trimStr (env.exec (dockerRunCmd cmd o)).out)) ∧
      ((env.exec (dockerRunCmd cmd o)).exit > 0 →
        (run cmd o env).1 =
          .error (.plain ("raw error: " ++ (env.exec (dockerRunCmd cmd o)).out)))) := by
  constructor
  · intro h
    simp only [run, inDocker, h, if_true]
    exact ⟨fun s => execResult_ok_iff _ s, fun hx => execResult_err _ hx⟩
  · intro h hpull
    simp only [run, inDocker, h, Bool.false_eq_true, if_false, dockerPull, hpull,
      gt_iff_lt, Nat.lt_irrefl, if_false]
    exact ⟨fun s => execResult_ok_iff _ s, fun hx => execResult_err _ hx⟩

/-- Witness for C2: inside docker, exit 0 with output " ok " yields the
trimmed success value ok, and exit 1 with output boom yields the error
wrapping boom. -/
theorem run_result_characterization_witness :
    (run "c" bOpt okTextEnv).1 = .ok "ok" ∧
    (run "c" bOpt bangEnv).1 = .error (.plain "raw error: boom") := by
  constructor
  · exact (((run_result_characterization "c" bOpt okTextEnv).1 rfl).1 "ok").mpr (by decide)
  · exact ((run_result_characterization "c" bOpt bangEnv).1 rfl).2 (by decide)

/-- Claim C9: whenever the environment detector reports that the process
is already inside docker, run spawns exactly the given command line
itself (so no image pull and no docker run wrapper with network or mount
flags) and normalizes its direct result. -/
theorem run_in_docker_direct (cmd : String) (o : Options) (env : Env)
    (h : env.inDocker = true) :
    run cmd o env = (execResult (env.exec cmd), [cmd]) := by
  simp [run, inDocker, h]

/-- Witness for C9 at a concrete environment and command. -/
theorem run_in_docker_direct_witness :
    run "c" bOpt okTextEnv = (execResult (okTextEnv.exec "c"), ["c"]) :=
  run_in_docker_direct "c" bOpt okTextEnv rfl

/-- Claim C3: given a valid configuration and a successful existence
query with output out, Exists succeeds exactly when out parses to the
boolean true, returns the distinguished not-found error wrapping dbName
exactly when out parses to false, and on a malformed boolean returns the
ParseBool hard error, which does not wrap ErrDBNotExist. -/
theorem exists_parse_characterization (dbName : String) (opt : Options) (env : Env)
    (hv : opt.isValid dbName = none) (out : String) (t : List String)
    (hr : run (psql "postgres" (dbExistsQuery dbName) opt) opt env = (.ok out, t)) :
    ((Exists dbName opt env).1 = .ok () ↔ parseBool out = some true) ∧
    ((Exists dbName opt env).1 =
        .error (.notExist (dbName ++ ": db does not exists")) ↔
      parseBool out = some false) ∧
    (parseBool out = none →
      (Exists dbName opt env).1 = .error (parseBoolErr out) ∧
      isNotExistErr (parseBoolErr out) = false) := by
  unfold Exists
  rw [hv, hr]
  rcases hp : parseBool out with - | b
  · simp [hp, parseBoolErr, isNotExistErr]
  · cases b <;> simp [hp]

/-- Witness for C3: with every query succeeding with boolean output t,
Exists reports success. -/
theorem exists_parse_characterization_witness :
    (Exists "mydb" bOpt okEnv).1 = .ok () := by
  exact ((exists_parse_characterization "mydb" bOpt okEnv rfl "t"
    [psql "postgres" (dbExistsQuery "mydb") bOpt] (by decide)).1).mpr (by decide)

theorem squeezeAux_true_ne_blank (ls : List String) :
    ∀ x xs, squeezeAux true ls = x :: xs → x ≠ "" := by
  induction ls with
  | nil => intro x xs h; simp [squeezeAux] at h
  | cons l rest ih =>
    intro x xs h
    by_cases hl : l = ""
    · rw [squeezeAux, if_pos hl, if_pos rfl] at h
      exact ih x xs h
    · rw [squeezeAux, if_neg hl] at h
      rw [← (List.cons.injEq ..).mp h |>.1]
      exact hl

theorem squeezeAux_noTwoBlanks (ls : List String) :
    ∀ b, noTwoBlanks (squeezeAux b ls) = true := by
  induction ls with
  | nil => intro b; rfl
  | cons l rest ih =>
    intro b
    by_cases hl : l = ""
    · subst hl
      cases b with
      | true =>
        rw [squeezeAux, if_pos rfl, if_pos rfl]
        exact ih true
      | false =>
        rw [squeezeAux, if_pos rfl, if_neg (by simp)]
        cases hsq : squeezeAux true rest with
        | nil => rfl
        | cons x xs =>
          have hx : x ≠ "" := squeezeAux_true_ne_blank rest x xs hsq
          have hrest := ih true
          rw [hsq] at hrest
          simp [noTwoBlanks, hrest, hx]
    · rw [squeezeAux, if_neg hl]
      cases hsq : squeezeAux false rest with
      | nil => rfl
      | cons x xs =>
        have hrest := ih false
        rw [hsq] at hrest
        simp [noTwoBlanks, hrest, hl]

/-- Claim C5: the dump pipeline removes exactly the lines containing
ALTER DEFAULT PRIVILEGES or OWNER TO and the lines starting with the
comment marker, REVOKE, COMMENT ON, SET, or GRANT, then collapses each
run of consecutive blank lines into one (so its output never has two
adjacent blanks); the given concrete input filters to the claimed
output; and on a successful extraction run SchemaDump returns exactly
the filtered text. -/
theorem dump_filter_rules :
    (∀ ls : List String,
      rejectChain ls = ls.filter (fun l =>
        !(containsSub l "ALTER DEFAULT PRIVILEGES") && !(containsSub l "OWNER TO") &&
        !(startsWithStr l "--") && !(startsWithStr l "REVOKE") &&
        !(startsWithStr l "COMMENT ON") && !(startsWithStr l "SET") &&
        !(startsWithStr l "GRANT"))) ∧
    (∀ ls : List String, noTwoBlanks (dumpFilter ls) = true) ∧
    dumpFilter ["-- comment", "GRANT x", "CREATE TABLE t();", "", "", "SET x=y;"] =
      ["CREATE TABLE t();", ""] ∧
    (∀ dbName opt env out t, Options.isValid opt dbName = none →
      run (pgDumpCmd dbName (defaultPort opt)) (defaultPort opt) env = (.ok out, t) →
      SchemaDump dbName "" opt env =
        (.ok (joinLines (dumpFilter (splitLines out))), t)) := by
  refine ⟨?_, ?_, by decide, ?_⟩
  · intro ls
    unfold rejectChain
    simp only [List.filter_filter]
    apply List.filter_congr
    intro a _
    simp [Bool.and_comm, Bool.and_left_comm, Bool.and_assoc]
  · intro ls
    exact squeezeAux_noTwoBlanks (rejectChain ls) false
  · intro dbName opt env out t hv hr
    simp only [SchemaDump, hv, hr, if_true]

/-- Witness for C5 at a concrete configuration and environment. -/
theorem dump_filter_rules_witness :
    SchemaDump "mydb" "" bOpt okTextEnv =
      (.ok (joinLines (dumpFilter (splitLines "ok"))),
        [pgDumpCmd "mydb" (defaultPort bOpt)]) := by
  exact dump_filter_rules.2.2.2 "mydb" bOpt okTextEnv "ok"
    [pgDumpCmd "mydb" (defaultPort bOpt)] rfl (by decide)

/-- Claim C8: for every database name, query and file path, the rendered
command with the port unset (zero value) is character for character the
command rendered with the port set to 5432, for the inline builder, the
file builder, and the schema dump command. -/
theorem port_default_identity (dbName query fileName : String) (o : Options) :
    psql dbName query { o with DBPort := 0 } =
      psql dbName query { o with DBPort := 5432 } ∧
    psqlFile dbName fileName { o with DBPort := 0 } =
      psqlFile dbName fileName { o with DBPort := 5432 } ∧
    pgDumpCmd dbName (defaultPort { o with DBPort := 0 }) =
      pgDumpCmd dbName (defaultPort { o with DBPort := 5432 }) :=
  ⟨rfl, rfl, rfl⟩

/-- Claim C10: no public operation reads the DBName field of the
configuration: changing only that field changes nothing about Create,
Exists, Terminate, Drop, Import, or SchemaDump; the target database is
fixed by the dbName argument alone. -/
theorem dbname_field_never_read (n dbName sqlFile outputFile : String)
    (o : Options) (env : Env) :
    Create dbName { o with DBName := n } env = Create dbName o env ∧
    Exists dbName { o with DBName := n } env = Exists dbName o env ∧
    Terminate dbName { o with DBName := n } env = Terminate dbName o env ∧
    Drop dbName { o with DBName := n } env = Drop dbName o env ∧
    Import dbName sqlFile { o with DBName := n } env = Import dbName sqlFile o env ∧
    SchemaDump dbName outputFile { o with DBName := n } env =
      SchemaDump dbName outputFile o env := by
  refine ⟨rfl, rfl, rfl, rfl, rfl, ?_⟩
  by_cases h : o.DBPort = 0 <;>
    simp [SchemaDump, defaultPort, h, Options.isValid, pgDumpCmd, run, inDocker,
      dockerPull, dockerRunCmd, execResult]

/-- Counterexample to claim C1 as stated: in an environment where the
user-existence step succeeds but the database-existence query of the
internal Exists check fails hard with an execution error, Create does not
return that error; it proceeds to run CREATE DATABASE and the privileges
statement and returns success. -/
theorem create_exists_error_counterexample :
    (Exists "mydb" bOpt existsFailEnv).1 = .error (.plain "raw error: boom") ∧
    Create "mydb" bOpt existsFailEnv =
      (.ok (),
        [psql "postgres" (userExistsQuery bOpt) bOpt,
         psql "postgres" (dbExistsQuery "mydb") bOpt,
         psql "postgres" (createDBQuery "mydb" bOpt) bOpt,
         psql "mydb" (grantQueries bOpt) bOpt]) := by
  exact ⟨by decide, by decide⟩

/-- Claim C1 amended: in Create, an execution error of the user-existence
step, a malformed boolean from it, an execution error of the user
creation step, and execution errors of the database creation and
privileges steps each abort the whole operation and are returned
verbatim; the internal Exists check is the exception: any error it
returns, hard or not-found, never aborts, and Create instead proceeds to
create the database (while an error-free Exists check makes Create return
success immediately). -/
theorem create_error_propagation (dbName : String) (o : Options) (env : Env)
    (hv : o.isValid dbName = none) :
    (∀ e t, run (psql "postgres" (userExistsQuery o) o) o env = (.error e, t) →
      Create dbName o env = (.error e, t)) ∧
    (∀ out t, run (psql "postgres" (userExistsQuery o) o) o env = (.ok out, t) →
      parseBool out = none →
      Create dbName o env = (.error (parseBoolErr out), t)) ∧
    (∀ out t e2 t2, run (psql "postgres" (userExistsQuery o) o) o env = (.ok out, t) →
      parseBool out = some false →
      run (psql "postgres" (createUserQuery o) o) o env = (.error e2, t2) →
      Create dbName o env = (.error e2, t ++ t2)) ∧
    (∀ out t uexists t2,
      run (psql "postgres" (userExistsQuery o) o) o env = (.ok out, t) →
      parseBool out = some uexists →
      ((uexists = true ∧ t2 = ([] : List String)) ∨
        (uexists = false ∧
          ∃ o2, run (psql "postgres" (createUserQuery o) o) o env = (.ok o2, t2))) →
      (∀ t3, Exists dbName o env = (.ok (), t3) →
        Create dbName o env = (.ok (), t ++ t2 ++ t3)) ∧
      (∀ e3 t3, Exists dbName o env = (.error e3, t3) →
        (∀ e4 t4, run (psql "postgres" (createDBQuery dbName o) o) o env = (.error e4, t4) →
          Create dbName o env = (.error e4, t ++ t2 ++ t3 ++ t4)) ∧
        (∀ o4 t4 e5 t5,
          run (psql "postgres" (createDBQuery dbName o) o) o env = (.ok o4, t4) →
          run (psql dbName (grantQueries o) o) o env = (.error e5, t5) →
          Create dbName o env = (.error e5, t ++ t2 ++ t3 ++ t4 ++ t5)) ∧
        (∀ o4 t4 o5 t5,
          run (psql "postgres" (createDBQuery dbName o) o) o env = (.ok o4, t4) →
          run (psql dbName (grantQueries o) o) o env = (.ok o5, t5) →
          Create dbName o env = (.ok (), t ++ t2 ++ t3 ++ t4 ++ t5)))) := by
  refine ⟨?_, ?_, ?_, ?_⟩
  · intro e t h1
    simp only [Create, hv, h1]
  · intro out t h1 hp
    simp only [Create, hv, h1, hp]
  · intro out t e2 t2 h1 hp h2
    simp only [Create, hv, h1, hp, h2, Bool.false_eq_true, if_false]
  · intro out t uexists t2 h1 hp hu
    rcases hu with ⟨hT, ht2⟩ | ⟨hF, o2, hc⟩
    · subst hT
      subst ht2
      constructor
      · intro t3 hE
        simp only [Create, hv, h1, hp, if_true, hE, List.append_nil]
      · intro e3 t3 hE
        refine ⟨?_, ?_, ?_⟩
        · intro e4 t4 h4
          simp only [Create, hv, h1, hp, if_true, hE, h4, List.append_nil]
        · intro o4 t4 e5 t5 h4 h5
          simp only [Create, hv, h1, hp, if_true, hE, h4, h5, List.append_nil]
        · intro o4 t4 o5 t5 h4 h5
          simp only [Create, hv, h1, hp, if_true, hE, h4, h5, List.append_nil]
    · subst hF
      constructor
      · intro t3 hE
        simp only [Create, hv, h1, hp, Bool.false_eq_true, if_false, hc, hE]
      · intro e3 t3 hE
        refine ⟨?_, ?_, ?_⟩
        · intro e4 t4 h4
          simp only [Create, hv, h1, hp, Bool.false_eq_true, if_false, hc, hE, h4]
        · intro o4 t4 e5 t5 h4 h5
          simp only [Create, hv, h1, hp, Bool.false_eq_true, if_false, hc, hE, h4, h5]
        · intro o4 t4 o5 t5 h4 h5
          simp only [Create, hv, h1, hp, Bool.false_eq_true, if_false, hc, hE, h4, h5]

/-- Witness for the amended C1 on the fresh-bootstrap path: the user is
absent, CREATE USER succeeds, the Exists probe reports not-found, and
Create proceeds through database creation and the privileges statement
to success. -/
theorem create_error_propagation_witness :
    Create "mydb" bOpt bootstrapEnv =
      (.ok (), [psql "postgres" (userExistsQuery bOpt) bOpt,
                psql "postgres" (createUserQuery bOpt) bOpt,
                psql "postgres" (dbExistsQuery "mydb") bOpt,
                psql "postgres" (createDBQuery "mydb" bOpt) bOpt,
                psql "mydb" (grantQueries bOpt) bOpt]) := by
  exact (((create_error_propagation "mydb" bOpt bootstrapEnv rfl).2.2.2 "f"
    [psql "postgres" (userExistsQuery bOpt) bOpt] false
    [psql "postgres" (createUserQuery bOpt) bOpt] (by decide) rfl
    (Or.inr ⟨rfl, "t", by decide⟩)).2
    (.notExist ("mydb" ++ ": db does not exists"))
    [psql "postgres" (dbExistsQuery "mydb") bOpt] (by decide)).2.2
    "t" [psql "postgres" (createDBQuery "mydb" bOpt) bOpt]
    "t" [psql "mydb" (grantQueries bOpt) bOpt] (by decide) (by decide)

/-- Counterexample to claim C4 as stated: a pull failure with output boom
and a container-run failure with output boom produce the very same error
value, so the caller of run cannot distinguish the two cases from the
returned error. -/
theorem pull_error_indistinguishable_counterexample :
    (run "psql x" bOpt pullFailEnv).1 = .error (.plain "raw error: boom") ∧
    (run "psql x" bOpt runFailEnv).1 = .error (.plain "raw error: boom") ∧
    (run "psql x" bOpt pullFailEnv).1 = (run "psql x" bOpt runFailEnv).1 := by
  exact ⟨by decide, by decide, by decide⟩

/-- Claim C4 amended: in the containerized path a pull failure aborts run
before the container is launched — the trace holds only the pull command,
never the docker run command — and the returned error wraps the captured
pull output; but the error value has the same raw-error form as a
command-execution failure, so the two are not distinguishable by kind
from the error alone. -/
theorem pull_failure_aborts (cmd : String) (o : Options) (env : Env)
    (hd : env.inDocker = false)
    (hp : (env.exec (pullCmd o.DockerImage)).exit > 0) :
    run cmd o env =
      (.error (.plain ("raw error: " ++ (env.exec (pullCmd o.DockerImage)).out)),
        [pullCmd o.DockerImage]) := by
  simp [run, inDocker, hd, dockerPull, hp]

/-- Witness for the amended C4 at the concrete pull-failure
environment. -/
theorem pull_failure_aborts_witness :
    run "psql x" bOpt pullFailEnv =
      (.error (.plain "raw error: boom"), [pullCmd "img"]) := by
  exact pull_failure_aborts "psql x" bOpt pullFailEnv rfl (by decide)

/-- Claim C6: Import with an empty sqlFile fails immediately, spawning
nothing; with a non-empty sqlFile it runs Drop then Create, binds the
absolute path of the directory obtained by stripping one leading dot and
then one leading slash from sqlFile into the container at the matching
internal path, and runs the file-based restore command; every step error
aborts the remaining steps and is returned. -/
theorem import_sequence (dbName sqlFile : String) (o : Options) (env : Env) :
    Import dbName "" o env =
      (.error (.plain "required option: sql file to import"), []) ∧
    (sqlFile ≠ "" →
      (∀ e t, Drop dbName o env = (.error e, t) →
        Import dbName sqlFile o env = (.error e, t)) ∧
      (∀ t, Drop dbName o env = (.ok (), t) →
        (∀ e2 t2, Create dbName o env = (.error e2, t2) →
          Import dbName sqlFile o env = (.error e2, t ++ t2)) ∧
        (∀ t2, Create dbName o env = (.ok (), t2) →
          (∀ m, env.abs (importDir sqlFile) = .error m →
            Import dbName sqlFile o env = (.error (.plain m), t ++ t2)) ∧
          (∀ absDir, env.abs (importDir sqlFile) = .ok absDir →
            (∀ e3 t3,
              run (psqlFile dbName sqlFile
                  { o with dockerVolume := absDir ++ ":/" ++ importDir sqlFile })
                { o with dockerVolume := absDir ++ ":/" ++ importDir sqlFile } env =
                (.error e3, t3) →
              Import dbName sqlFile o env = (.error e3, t ++ t2 ++ t3)) ∧
            (∀ out3 t3,
              run (psqlFile dbName sqlFile
                  { o with dockerVolume := absDir ++ ":/" ++ importDir sqlFile })
                { o with dockerVolume := absDir ++ ":/" ++ importDir sqlFile } env =
                (.ok out3, t3) →
              Import dbName sqlFile o env = (.ok (), t ++ t2 ++ t3)))))) := by
  constructor
  · simp only [Import, if_true]
  · intro hf
    refine ⟨?_, ?_⟩
    · intro e t hD
      simp only [Import, hf, if_false, hD]
    · intro t hD
      refine ⟨?_, ?_⟩
      · intro e2 t2 hC
        simp only [Import, hf, if_false, hD, hC]
      · intro t2 hC
        refine ⟨?_, ?_⟩
        · intro m hA
          simp only [Import, hf, if_false, hD, hC, hA]
        · intro absDir hA
          refine ⟨?_, ?_⟩
          · intro e3 t3 h3
            simp only [Import, hf, if_false, hD, hC, hA, h3]
          · intro out3 t3 h3
            simp only [Import, hf, if_false, hD, hC, hA, h3]

/-- Witness for C6: a full successful import run at a concrete
environment. -/
theorem import_sequence_witness :
    Import "mydb" "./data/s.sql" bOpt okEnv =
      (.ok (), (Drop "mydb" bOpt okEnv).2 ++ (Create "mydb" bOpt okEnv).2 ++
        [psqlFile "mydb" "./data/s.sql"
          { bOpt with dockerVolume := "/cwd/data/" ++ ":/" ++ "data/" }]) := by
  exact ((((((import_sequence "mydb" "./data/s.sql" bOpt okEnv).2 (by decide)).2
    (Drop "mydb" bOpt okEnv).2 (by decide)).2
    (Create "mydb" bOpt okEnv).2 (by decide)).2
    "/cwd/data/" (by decide)).2 "t"
    [psqlFile "mydb" "./data/s.sql"
      { bOpt with dockerVolume := "/cwd/data/" ++ ":/" ++ "data/" }] (by decide))

/-- Counterexample to claim C7 as stated: Import called with an empty
database name and an empty sqlFile does fail before any I/O, but with the
sqlFile error, not with an error naming the missing database name
field. -/
theorem import_empty_name_counterexample :
    Import "" "" bOpt okEnv =
      (.error (.plain "required option: sql file to import"), []) ∧
    GoError.plain "required option: sql file to import" ≠
      GoError.plain "postdock: required option: db name" := by
  exact ⟨by decide, by decide⟩

/-- Claim C7 amended: the validation check reports the first missing
field in the fixed order db name, host, user, password, image; every one
of Create, Exists, Terminate, Drop, SchemaDump, and Import with a
non-empty sqlFile fails with exactly that error before spawning any
external process; Import with an empty sqlFile instead fails, still
before any I/O, with the sqlFile error regardless of the
configuration. -/
theorem validation_first_failure (dbName sqlFile outputFile : String)
    (o : Options) (env : Env) :
    (dbName = "" →
      o.isValid dbName = some (.plain "postdock: required option: db name")) ∧
    (dbName ≠ "" → o.DBHost = "" →
      o.isValid dbName = some (.plain "postdock: required option: db host")) ∧
    (dbName ≠ "" → o.DBHost ≠ "" → o.DBUser = "" →
      o.isValid dbName = some (.plain "postdock: required option: db user")) ∧
    (dbName ≠ "" → o.DBHost ≠ "" → o.DBUser ≠ "" → o.DBPassword = "" →
      o.isValid dbName = some (.plain "postdock: required option: db password")) ∧
    (dbName ≠ "" → o.DBHost ≠ "" → o.DBUser ≠ "" → o.DBPassword ≠ "" →
      o.DockerImage = "" →
      o.isValid dbName =
        some (.plain "postdock: required option: docker base image (ex: postgres:11.7-alpine")) ∧
    (∀ e, o.isValid dbName = some e →
      Create dbName o env = (.error e, []) ∧
      Exists dbName o env = (.error e, []) ∧
      Terminate dbName o env = (.error e, []) ∧
      Drop dbName o env = (.error e, []) ∧
      SchemaDump dbName outputFile o env = (.error e, []) ∧
      (sqlFile ≠ "" → Import dbName sqlFile o env = (.error e, []))) ∧
    Import dbName "" o env =
      (.error (.plain "required option: sql file to import"), []) := by
  refine ⟨?_, ?_, ?_, ?_, ?_, ?_, ?_⟩
  · intro h; simp [Options.isValid, h]
  · intro h1 h2; simp [Options.isValid, h1, h2]
  · intro h1 h2 h3; simp [Options.isValid, h1, h2, h3]
  · intro h1 h2 h3 h4; simp [Options.isValid, h1, h2, h3, h4]
  · intro h1 h2 h3 h4 h5; simp [Options.isValid, h1, h2, h3, h4, h5]
  · intro e he
    have hT : Terminate dbName o env = (.error e, []) := by
      simp only [Terminate, he]
    have hD : Drop dbName o env = (.error e, []) := by
      simp only [Drop, hT]
    refine ⟨?_, ?_, hT, hD, ?_, ?_⟩
    · simp only [Create, he]
    · simp only [Exists, he]
    · simp only [SchemaDump, he]
    · intro hf
      simp only [Import, hf, if_false, hD]
  · simp only [Import, if_true]

/-- Witness for the amended C7: with an empty database name, Create fails
with the error naming the db name field and spawns nothing. -/
theorem validation_first_failure_witness :
    Create "" bOpt okEnv =
      (.error (.plain "postdock: required option: db name"), []) := by
  exact ((validation_first_failure "" "x" "" bOpt okEnv).2.2.2.2.2.1
    (.plain "postdock: required option: db name") rfl).1

end Postdock
